import Mathlib

/- Shallow embedding of the chosi image-customization pipeline (src/main.go).
External effects (executed commands, filesystem calls, HTTP) are modelled by
oracle records: each fallible external operation's outcome is a field of a
world record, and the embedded functions reproduce the source's control flow
over those outcomes, recording the externally visible events the source
performs, in the order it performs them. -/

namespace Chosi

/-- Go path.Join applied to a clean directory and a slash-led component, the
only shape the source uses, reduces to string concatenation. -/
def pathJoin (dir sub : String) : String := dir ++ sub

/-- One mebibyte, as computed in convertImageToFormat:
int64(math.Pow(1024, 2)) = 1048576 exactly. -/
def mebibyte : Nat := 1024 ^ 2

/-- The resize target computed by convertImageToFormat for the VHD output
format: roundedSize := ((imageStat.Size() / mebibyte) + 1) * mebibyte.
Size() is a nonnegative int64 and the arithmetic stays far below 2^63 for any
file that exists on disk, so Nat division models Go's int64 division exactly
here. -/
def roundedSize (size : Nat) : Nat := (size / mebibyte + 1) * mebibyte

/-- Modelled from the spec's words, as the refinement target to compare with
roundedSize: the spec mandates resizing to ceil(sizeBytes / MiB) * MiB. -/
def ceilMiBAligned (size : Nat) : Nat := ((size + mebibyte - 1) / mebibyte) * mebibyte

/-- Claim C2 (counterexample): at an input size of exactly one mebibyte the
code's resize target is two mebibytes, while the spec's ceiling formula keeps
the size unchanged, so the resize is not idempotent on aligned sizes. -/
theorem roundedSize_ne_ceil_at_one_MiB :
    roundedSize (1024 ^ 2) = 2 * 1024 ^ 2 ∧ ceilMiBAligned (1024 ^ 2) = 1024 ^ 2 ∧
      roundedSize (1024 ^ 2) ≠ ceilMiBAligned (1024 ^ 2) := by
  refine ⟨?_, ?_, ?_⟩ <;> norm_num [roundedSize, ceilMiBAligned, mebibyte]

/-- Claim C2 (amended): the resize step sets the image size to
(floor(s / MiB) + 1) * MiB. For a size that is not an exact mebibyte multiple
this coincides with the spec's ceil(s / MiB) * MiB, but an exactly aligned
size is grown by one full mebibyte rather than left unchanged. -/
theorem roundedSize_next_strict_boundary (s : Nat) :
    (¬ mebibyte ∣ s → roundedSize s = ceilMiBAligned s) ∧
      (mebibyte ∣ s → roundedSize s = s + mebibyte) := by
  have hm : mebibyte = 1048576 := by norm_num [mebibyte]
  constructor
  · intro h
    rw [Nat.dvd_iff_mod_eq_zero] at h
    simp only [roundedSize, ceilMiBAligned, hm] at *
    omega
  · intro h
    rw [Nat.dvd_iff_mod_eq_zero] at h
    simp only [roundedSize, hm] at *
    omega

/-- Witness for the amended C2 statement at concrete sizes: 5 bytes is not
mebibyte-aligned and gets the ceiling size; one exact mebibyte is grown by a
full mebibyte. -/
theorem roundedSize_next_strict_boundary_witness :
    roundedSize 5 = ceilMiBAligned 5 ∧ roundedSize (1024 ^ 2) = 1024 ^ 2 + mebibyte :=
  ⟨(roundedSize_next_strict_boundary 5).1 (by decide),
    (roundedSize_next_strict_boundary (1024 ^ 2)).2 (by norm_num [mebibyte])⟩

/-- Oracle for the four external operations of configureCloudInit. copyResult
is the io.Copy outcome, bytes copied or an error; the source drops both return
values of io.Copy on the floor. -/
structure CloudInitWorld where
  createOk : Bool
  openOk : Bool
  copyResult : Except String Nat
  closeOk : Bool

/-- configureCloudInit from src/main.go: create the destination chosi.cfg
inside the guest, open the cloud-init source document, copy the bytes
(io.Copy with both results discarded, as in the source), then check only the
destination file's close. -/
def configureCloudInit (w : CloudInitWorld) (mountPath cloudInitConfigPath : String) :
    Except String Unit :=
  let _filePath := pathJoin mountPath "/etc/cloud/cloud.cfg.d/chosi.cfg"
  let _srcPath := cloudInitConfigPath
  if w.createOk = false then Except.error "error when creating file"
  else if w.openOk = false then Except.error "error when opening cloud-init config"
  else
    let _ := w.copyResult
    if w.closeOk = false then Except.error "error when closing file"
    else Except.ok ()

/-- Claim C10: configureCloudInit discards the result of the byte copy:
whenever creating the destination, opening the source and closing the
destination all succeed, it reports success, regardless of whether the copy
itself failed or copied no content. -/
theorem configureCloudInit_ignores_copy (w : CloudInitWorld) (mp cp : String)
    (h1 : w.createOk = true) (h2 : w.openOk = true) (h3 : w.closeOk = true) :
    configureCloudInit w mp cp = Except.ok () := by
  simp [configureCloudInit, h1, h2, h3]

/-- Witness for C10: a run whose io.Copy failed outright still reports
success. -/
theorem configureCloudInit_ignores_copy_witness :
    configureCloudInit ⟨true, true, Except.error "copy failed", true⟩
      "/tmp/mount1" "/cfg.yaml" = Except.ok () :=
  configureCloudInit_ignores_copy _ _ _ rfl rfl rfl

/-- Events performed by installExtraPackages against the guest: the staging
mkdir, per-artifact cp into the staging directory, per-artifact
chroot dpkg unpack, and the deferred os.RemoveAll of the staging
directory. -/
inductive PkgEv where
  | mkdir : PkgEv
  | copy : String → PkgEv
  | unpack : String → PkgEv
  | removeAll : PkgEv
  deriving DecidableEq

/-- Oracle for installExtraPackages: the staging-directory mkdir outcome, and
the per-artifact outcomes of the cp and dpkg unpack commands. -/
structure PkgWorld where
  mkdirOk : Bool
  copyOk : String → Bool
  unpackOk : String → Bool

/-- The per-package loop of installExtraPackages: cp the artifact into the
staging directory, then chroot dpkg unpack it; the source returns at the
first failing command, wrapping that command's diagnostic output, which
identifies the artifact (modelled here by the artifact string). -/
def installLoop (copyOk unpackOk : String → Bool) :
    List String → Except String Unit × List PkgEv
  | [] => (Except.ok (), [])
  | pkg :: rest =>
    if copyOk pkg = false then
      (Except.error ("failed copy package: " ++ pkg), [PkgEv.copy pkg])
    else if unpackOk pkg = false then
      (Except.error ("failed to unpack package: " ++ pkg),
        [PkgEv.copy pkg, PkgEv.unpack pkg])
    else
      let r := installLoop copyOk unpackOk rest
      (r.1, PkgEv.copy pkg :: PkgEv.unpack pkg :: r.2)

/-- installExtraPackages from src/main.go: mkdir the guest-visible staging
directory (failure aborts before anything else is attempted), defer
os.RemoveAll on it — which therefore fires, last, on every later return
path — then run the per-package loop. -/
def installExtraPackages (w : PkgWorld) (mountPath : String) (packages : List String) :
    Except String Unit × List PkgEv :=
  let _absTmpDirPath := pathJoin mountPath "/tmp/packages"
  if w.mkdirOk = false then (Except.error "failed to create temp dir", [PkgEv.mkdir])
  else
    let r := installLoop w.copyOk w.unpackOk packages
    (r.1, PkgEv.mkdir :: (r.2 ++ [PkgEv.removeAll]))

/-- The staging-directory removal event never occurs inside the per-package
loop itself; it is performed only by the deferred release. -/
theorem removeAll_not_in_installLoop (c u : String → Bool) (ps : List String) :
    PkgEv.removeAll ∉ (installLoop c u ps).2 := by
  induction ps with
  | nil => simp [installLoop]
  | cons p rest ih =>
    by_cases hc : c p = false
    · simp [installLoop, hc]
    · by_cases hu : u p = false
      · simp [installLoop, hc, hu]
      · simp [installLoop, hc, hu, ih]

/-- Claim C9: whenever the staging directory is created, the deferred
removal fires exactly once and is the last action of the installation stage,
on every execution path — in particular also when a copy or an unpack
fails. -/
theorem staging_dir_always_removed (w : PkgWorld) (mp : String) (ps : List String)
    (h : w.mkdirOk = true) :
    (installExtraPackages w mp ps).2.count PkgEv.removeAll = 1 ∧
      (installExtraPackages w mp ps).2.getLast? = some PkgEv.removeAll := by
  have hnot := removeAll_not_in_installLoop w.copyOk w.unpackOk ps
  constructor
  · simp [installExtraPackages, h, List.count_append, List.count_eq_zero.mpr hnot]
  · have h2 : installExtraPackages w mp ps
        = ((installLoop w.copyOk w.unpackOk ps).1,
           PkgEv.mkdir :: ((installLoop w.copyOk w.unpackOk ps).2 ++ [PkgEv.removeAll])) := by
      simp [installExtraPackages, h]
    rw [h2, ← List.cons_append, List.getLast?_concat]

/-- Witness for C9: two artifacts where the second artifact's unpack fails;
the staging directory is still removed, exactly once, as the last action. -/
theorem staging_dir_always_removed_witness :
    (installExtraPackages
        ⟨true, fun _ => true, fun p => p ≠ "b.deb"⟩ "/tmp/mount1"
        ["a.deb", "b.deb"]).2.count PkgEv.removeAll = 1 ∧
      (installExtraPackages
        ⟨true, fun _ => true, fun p => p ≠ "b.deb"⟩ "/tmp/mount1"
        ["a.deb", "b.deb"]).2.getLast? = some PkgEv.removeAll :=
  staging_dir_always_removed _ _ _ rfl

/-- The copy and unpack events of a run, two per artifact, in artifact
order. -/
def pkgEvents : List String → List PkgEv
  | [] => []
  | p :: ps => PkgEv.copy p :: PkgEv.unpack p :: pkgEvents ps

/-- On a block of artifacts that all copy and unpack successfully, the loop
performs both events for each and continues with the rest. -/
theorem installLoop_append_ok (c u : String → Bool) (pre rest : List String)
    (h : ∀ p ∈ pre, c p = true ∧ u p = true) :
    installLoop c u (pre ++ rest) =
      ((installLoop c u rest).1, pkgEvents pre ++ (installLoop c u rest).2) := by
  induction pre with
  | nil => simp [pkgEvents]
  | cons p ps ih =>
    have hp := h p (by simp)
    have hps : ∀ q ∈ ps, c q = true ∧ u q = true := fun q hq => h q (by simp [hq])
    simp [installLoop, hp.1, hp.2, ih hps, pkgEvents]

/-- RemovePackages from src/main.go: purge each named package inside the
change-rooted guest, stopping at the first failure. -/
def RemovePackages (removeOk : String → Bool) : List String → Except String Unit
  | [] => Except.ok ()
  | pkg :: rest =>
    if removeOk pkg = false then Except.error ("failed to remove package: " ++ pkg)
    else RemovePackages removeOk rest

/-- The three fields substituted into the embedded boot-loader template by
configureGrub; this is the struct literal built in the source. The template
itself (grub.cfg.tmpl) carries exactly these three named substitution
points, so this record is the rendered configuration's variable content. -/
structure GrubConfig where
  Kernel : String
  Initrd : String
  Cmdline : String
  deriving DecidableEq

/-- Oracle for the boot-artifact stage: the chroot update-initramfs outcome,
and the create/write outcomes for the grub configuration file. The embedded
template is a compile-time constant, so its parse step is deterministic and
always succeeds on the shipped template. -/
structure BootWorld where
  initrdOk : Bool
  grubCreateOk : Bool
  grubWriteOk : Bool

/-- configureGrub from src/main.go: on arm64 (no extended boot partition)
the kernel and initrd paths get a boot/ path component; the filled-in
template data is returned on success. -/
def configureGrub (goarch : String) (w : BootWorld) (kernel initrd cmdline : String) :
    Except String GrubConfig :=
  let pfx := if goarch = "arm64" then "boot/" else ""
  let config : GrubConfig := { Kernel := pfx ++ kernel, Initrd := pfx ++ initrd,
                               Cmdline := cmdline }
  if w.grubCreateOk = false then Except.error "failed to open grub config"
  else if w.grubWriteOk = false then Except.error "failed to write grub config"
  else Except.ok config

/-- setupBoot from src/main.go: rebuild the initrd for the requested kernel
version, then render the grub configuration; the kernel command line drops
the serial-console arguments on arm64. -/
def setupBoot (goarch : String) (w : BootWorld) (kernelVersion : String) :
    Except String GrubConfig :=
  if w.initrdOk = false then Except.error "failed to build initrd"
  else
    let cmdline := if goarch = "arm64" then "root=LABEL=cloudimg-rootfs ro"
      else "root=LABEL=cloudimg-rootfs ro console=tty1 console=ttyS0"
    let kernel := "vmlinuz-" ++ kernelVersion
    let initrd := "initrd.img-" ++ kernelVersion
    configureGrub goarch w kernel initrd cmdline

/-- listStartsWith needle hay: hay begins with needle. -/
def listStartsWith : List Char → List Char → Bool
  | [], _ => true
  | _ :: _, [] => false
  | a :: as, b :: bs => a == b && listStartsWith as bs

/-- listHasSub needle hay: needle occurs contiguously somewhere in hay. -/
def listHasSub : List Char → List Char → Bool
  | needle, [] => needle.isEmpty
  | needle, b :: bs => listStartsWith needle (b :: bs) || listHasSub needle bs

/-- strContains hay needle: needle occurs as a contiguous substring of
hay. -/
def strContains (hay needle : String) : Bool := listHasSub needle.data hay.data

/-- Claim C7: for kernel version 5.15.0-76-generic, on any architecture
other than arm64 (arm64 being the default target whose boot artifacts live
on the root partition) the rendered boot-loader configuration references
vmlinuz-5.15.0-76-generic and initrd.img-5.15.0-76-generic with a command
line containing console=ttyS0; on arm64 the same paths carry the boot/
path component and the command line omits console=ttyS0. -/
theorem setupBoot_rendering (goarch : String) (w : BootWorld)
    (hI : w.initrdOk = true) (hC : w.grubCreateOk = true) (hW : w.grubWriteOk = true) :
    (goarch ≠ "arm64" →
      setupBoot goarch w "5.15.0-76-generic" =
        Except.ok { Kernel := "vmlinuz-5.15.0-76-generic",
                    Initrd := "initrd.img-5.15.0-76-generic",
                    Cmdline := "root=LABEL=cloudimg-rootfs ro console=tty1 console=ttyS0" } ∧
      strContains "root=LABEL=cloudimg-rootfs ro console=tty1 console=ttyS0"
        "console=ttyS0" = true) ∧
    (setupBoot "arm64" w "5.15.0-76-generic" =
        Except.ok { Kernel := "boot/vmlinuz-5.15.0-76-generic",
                    Initrd := "boot/initrd.img-5.15.0-76-generic",
                    Cmdline := "root=LABEL=cloudimg-rootfs ro" } ∧
      strContains "root=LABEL=cloudimg-rootfs ro" "console=ttyS0" = false) := by
  refine ⟨fun hne => ⟨?_, by decide⟩, ⟨?_, by decide⟩⟩
  · simp [setupBoot, configureGrub, hI, hC, hW, hne]
  · simp [setupBoot, configureGrub, hI, hC, hW]

/-- Witness for C7 at the concrete architectures amd64 and arm64 with all
boot-stage operations succeeding. -/
theorem setupBoot_rendering_witness :
    setupBoot "amd64" ⟨true, true, true⟩ "5.15.0-76-generic" =
      Except.ok { Kernel := "vmlinuz-5.15.0-76-generic",
                  Initrd := "initrd.img-5.15.0-76-generic",
                  Cmdline := "root=LABEL=cloudimg-rootfs ro console=tty1 console=ttyS0" } ∧
    setupBoot "arm64" ⟨true, true, true⟩ "5.15.0-76-generic" =
      Except.ok { Kernel := "boot/vmlinuz-5.15.0-76-generic",
                  Initrd := "boot/initrd.img-5.15.0-76-generic",
                  Cmdline := "root=LABEL=cloudimg-rootfs ro" } :=
  ⟨((setupBoot_rendering "amd64" ⟨true, true, true⟩ rfl rfl rfl).1 (by decide)).1,
    ((setupBoot_rendering "amd64" ⟨true, true, true⟩ rfl rfl rfl).2).1⟩

/-- The configuration record decoded from the JSON config file, field for
field as in src/main.go. -/
structure Config where
  CloudInitConfigPath : String
  ImageURL : String
  ExtraPackages : List String
  RemovePackages : List String
  KernelVersion : String
  OutputFormat : String

/-- The guest-customization stages of customizeMount, in source order. -/
inductive Stage where
  | cloudInit : Stage
  | removePkgs : Stage
  | installPkgs : Stage
  | bootSetup : Stage
  deriving DecidableEq

/-- Oracle for all guest-mutation operations reachable from
customizeMount. -/
structure GuestWorld where
  cloudInit : CloudInitWorld
  removeOk : String → Bool
  pkg : PkgWorld
  boot : BootWorld

/-- customizeMount from src/main.go: configuration injection always runs
first; package removal runs only when the removal list is nonempty; package
installation only when the artifact list is nonempty; boot setup only when a
kernel version is set. The first failing stage aborts the rest. The second
component records which stages were entered, in execution order. -/
def customizeMount (goarch : String) (w : GuestWorld) (mountPath : String)
    (config : Config) : Except String Unit × List Stage :=
  match configureCloudInit w.cloudInit mountPath config.CloudInitConfigPath with
  | Except.error e => (Except.error ("failed to configure cloud-init: " ++ e), [Stage.cloudInit])
  | Except.ok _ =>
    let t1 := [Stage.cloudInit]
    let s2 : Except String Unit × List Stage :=
      if config.RemovePackages.length > 0 then
        (RemovePackages w.removeOk config.RemovePackages, t1 ++ [Stage.removePkgs])
      else (Except.ok (), t1)
    match s2 with
    | (Except.error e, t2) => (Except.error ("failed to remove packages: " ++ e), t2)
    | (Except.ok _, t2) =>
      let s3 : Except String Unit × List Stage :=
        if config.ExtraPackages.length > 0 then
          ((installExtraPackages w.pkg mountPath config.ExtraPackages).1,
            t2 ++ [Stage.installPkgs])
        else (Except.ok (), t2)
      match s3 with
      | (Except.error e, t3) => (Except.error ("failed to install extra packages: " ++ e), t3)
      | (Except.ok _, t3) =>
        let s4 : Except String Unit × List Stage :=
          if config.KernelVersion ≠ "" then
            ((setupBoot goarch w.boot config.KernelVersion).map (fun _ => ()),
              t3 ++ [Stage.bootSetup])
          else (Except.ok (), t3)
        match s4 with
        | (Except.error e, t4) => (Except.error ("failed to setup boot: " ++ e), t4)
        | (Except.ok _, t4) => (Except.ok (), t4)

/-- Claim C5: when every populated stage succeeds, the stages entered are
exactly configuration injection, then package removal iff removals are
listed, then package installation iff artifacts are listed, then boot setup
iff a kernel version is set, in that order; and for a configuration with
only the cloud-init path populated, exactly the configuration-injection
mutation is performed, whatever the oracle outcomes. -/
theorem customizeMount_stage_order (goarch : String) (w : GuestWorld)
    (mp : String) (cfg : Config)
    (h1 : configureCloudInit w.cloudInit mp cfg.CloudInitConfigPath = Except.ok ())
    (h2 : RemovePackages w.removeOk cfg.RemovePackages = Except.ok ())
    (h3 : (installExtraPackages w.pkg mp cfg.ExtraPackages).1 = Except.ok ())
    (h4 : ∃ g, setupBoot goarch w.boot cfg.KernelVersion = Except.ok g) :
    ((customizeMount goarch w mp cfg).2 =
      [Stage.cloudInit]
        ++ (if cfg.RemovePackages.length > 0 then [Stage.removePkgs] else [])
        ++ (if cfg.ExtraPackages.length > 0 then [Stage.installPkgs] else [])
        ++ (if cfg.KernelVersion ≠ "" then [Stage.bootSetup] else [])) ∧
    ∀ (g' : String) (w' : GuestWorld) (mp' cip url ofmt : String),
      (customizeMount g' w' mp'
        { CloudInitConfigPath := cip, ImageURL := url, ExtraPackages := [],
          RemovePackages := [], KernelVersion := "", OutputFormat := ofmt }).2
        = [Stage.cloudInit] := by
  constructor
  · obtain ⟨g, hg⟩ := h4
    by_cases hr : cfg.RemovePackages.length > 0 <;>
      by_cases he : cfg.ExtraPackages.length > 0 <;>
        by_cases hk : cfg.KernelVersion ≠ "" <;>
          simp [customizeMount, h1, h2, h3, hg, hr, he, hk, Except.map]
  · intro g' w' mp' cip url ofmt
    rcases hci : configureCloudInit w'.cloudInit mp' cip with e | u
    · simp [customizeMount, hci]
    · simp [customizeMount, hci]

/-- Witness for C5: a fully populated configuration with every operation
succeeding enters all four stages in order. -/
theorem customizeMount_stage_order_witness :
    (customizeMount "amd64"
        ⟨⟨true, true, Except.ok 7, true⟩, fun _ => true,
          ⟨true, fun _ => true, fun _ => true⟩, ⟨true, true, true⟩⟩
        "/tmp/mount1"
        { CloudInitConfigPath := "/cfg.yaml", ImageURL := "http://x",
          ExtraPackages := ["a.deb"], RemovePackages := ["snapd"],
          KernelVersion := "5.15.0-76-generic", OutputFormat := "" }).2 =
      [Stage.cloudInit, Stage.removePkgs, Stage.installPkgs, Stage.bootSetup] := by
  have h := customizeMount_stage_order "amd64"
    ⟨⟨true, true, Except.ok 7, true⟩, fun _ => true,
      ⟨true, fun _ => true, fun _ => true⟩, ⟨true, true, true⟩⟩
    "/tmp/mount1"
    { CloudInitConfigPath := "/cfg.yaml", ImageURL := "http://x",
      ExtraPackages := ["a.deb"], RemovePackages := ["snapd"],
      KernelVersion := "5.15.0-76-generic", OutputFormat := "" }
    rfl rfl rfl ⟨_, rfl⟩
  simpa using h.1

/-- Claim C6: with a first block of artifacts that stage and unpack cleanly
and a later artifact whose unpack fails, the installation performs exactly
the events for the clean block and the failing artifact (nothing after the
failing artifact is attempted) plus the deferred staging cleanup, reports an
error attributable to the failing artifact, and the surrounding pipeline
reports that error and never enters the boot stage. -/
theorem install_stops_at_first_failure (goarch mp : String) (w : GuestWorld)
    (cfg : Config) (pre : List String) (bad : String) (post : List String)
    (hmk : w.pkg.mkdirOk = true)
    (hpre : ∀ p ∈ pre, w.pkg.copyOk p = true ∧ w.pkg.unpackOk p = true)
    (hcopy : w.pkg.copyOk bad = true) (hbad : w.pkg.unpackOk bad = false)
    (hcfg : cfg.ExtraPackages = pre ++ bad :: post)
    (hci : configureCloudInit w.cloudInit mp cfg.CloudInitConfigPath = Except.ok ())
    (hrm : RemovePackages w.removeOk cfg.RemovePackages = Except.ok ()) :
    installExtraPackages w.pkg mp cfg.ExtraPackages =
      (Except.error ("failed to unpack package: " ++ bad),
        PkgEv.mkdir :: (pkgEvents pre
          ++ [PkgEv.copy bad, PkgEv.unpack bad, PkgEv.removeAll])) ∧
    (customizeMount goarch w mp cfg).1 =
      Except.error ("failed to install extra packages: "
        ++ ("failed to unpack package: " ++ bad)) ∧
    Stage.bootSetup ∉ (customizeMount goarch w mp cfg).2 := by
  have hloop : installLoop w.pkg.copyOk w.pkg.unpackOk (pre ++ bad :: post) =
      (Except.error ("failed to unpack package: " ++ bad),
        pkgEvents pre ++ [PkgEv.copy bad, PkgEv.unpack bad]) := by
    rw [installLoop_append_ok w.pkg.copyOk w.pkg.unpackOk pre (bad :: post) hpre]
    simp [installLoop, hcopy, hbad]
  have hinst : installExtraPackages w.pkg mp cfg.ExtraPackages =
      (Except.error ("failed to unpack package: " ++ bad),
        PkgEv.mkdir :: (pkgEvents pre
          ++ [PkgEv.copy bad, PkgEv.unpack bad, PkgEv.removeAll])) := by
    rw [hcfg]
    simp [installExtraPackages, hmk, hloop]
  refine ⟨hinst, ?_, ?_⟩
  · have hlen : cfg.ExtraPackages.length > 0 := by simp [hcfg]
    by_cases hr : cfg.RemovePackages.length > 0 <;>
      simp [customizeMount, hci, hrm, hr, hlen, hinst]
  · have hlen : cfg.ExtraPackages.length > 0 := by simp [hcfg]
    by_cases hr : cfg.RemovePackages.length > 0 <;>
      simp [customizeMount, hci, hrm, hr, hlen, hinst]

/-- Witness for C6: the spec's two-artifact scenario, where the second
artifact's unpack fails. -/
theorem install_stops_at_first_failure_witness :
    installExtraPackages ⟨true, fun _ => true, fun p => p ≠ "b.deb"⟩ "/tmp/mount1"
        ["a.deb", "b.deb"] =
      (Except.error ("failed to unpack package: " ++ "b.deb"),
        PkgEv.mkdir :: (pkgEvents ["a.deb"]
          ++ [PkgEv.copy "b.deb", PkgEv.unpack "b.deb", PkgEv.removeAll])) ∧
    (customizeMount "amd64"
        ⟨⟨true, true, Except.ok 7, true⟩, fun _ => true,
          ⟨true, fun _ => true, fun p => p ≠ "b.deb"⟩, ⟨true, true, true⟩⟩
        "/tmp/mount1"
        { CloudInitConfigPath := "/cfg.yaml", ImageURL := "http://x",
          ExtraPackages := ["a.deb", "b.deb"], RemovePackages := [],
          KernelVersion := "5.15.0-76-generic", OutputFormat := "" }).1 =
      Except.error ("failed to install extra packages: "
        ++ ("failed to unpack package: " ++ "b.deb")) ∧
    Stage.bootSetup ∉ (customizeMount "amd64"
        ⟨⟨true, true, Except.ok 7, true⟩, fun _ => true,
          ⟨true, fun _ => true, fun p => p ≠ "b.deb"⟩, ⟨true, true, true⟩⟩
        "/tmp/mount1"
        { CloudInitConfigPath := "/cfg.yaml", ImageURL := "http://x",
          ExtraPackages := ["a.deb", "b.deb"], RemovePackages := [],
          KernelVersion := "5.15.0-76-generic", OutputFormat := "" }).2 :=
  install_stops_at_first_failure "amd64" "/tmp/mount1"
    ⟨⟨true, true, Except.ok 7, true⟩, fun _ => true,
      ⟨true, fun _ => true, fun p => p ≠ "b.deb"⟩, ⟨true, true, true⟩⟩
    { CloudInitConfigPath := "/cfg.yaml", ImageURL := "http://x",
      ExtraPackages := ["a.deb", "b.deb"], RemovePackages := [],
      KernelVersion := "5.15.0-76-generic", OutputFormat := "" }
    ["a.deb"] "b.deb" [] rfl (by decide) (by decide) (by decide) rfl rfl rfl

/-- A single mount attempt: source partition device and target directory. -/
inductive MountEv where
  | mount : String → String → MountEv
  deriving DecidableEq

/-- Oracle for the partition mounter: the outcome of mounting a given
partition device onto a given target. -/
structure PartWorld where
  mountOk : String → String → Bool

/-- Whether the oracle lets a given mount attempt succeed. -/
def mountEvOk (w : PartWorld) : MountEv → Bool
  | MountEv.mount src dst => w.mountOk src dst

/-- mountLoopDevice from src/main.go: mount the root partition p1 onto the
scratch directory; then, except on arm64 (whose images have no extended
boot partition), mount p16 onto scratchDir/boot; then mount the EFI system
partition p15 onto scratchDir/boot/efi. The first failing mount aborts the
operation. The second component records the mounts attempted, in order. -/
def mountLoopDevice (goarch : String) (w : PartWorld) (loopDevice mountPath : String) :
    Except String Unit × List MountEv :=
  let rootPartition := loopDevice ++ "p1"
  let rootEv := MountEv.mount rootPartition mountPath
  if w.mountOk rootPartition mountPath = false then
    (Except.error "failed to mount loop device", [rootEv])
  else
    let esp := loopDevice ++ "p15"
    let espEv := MountEv.mount esp (pathJoin mountPath "/boot/efi")
    if goarch ≠ "arm64" then
      let xboot := loopDevice ++ "p16"
      let xbootEv := MountEv.mount xboot (pathJoin mountPath "/boot")
      if w.mountOk xboot (pathJoin mountPath "/boot") = false then
        (Except.error "failed to mount loop device", [rootEv, xbootEv])
      else if w.mountOk esp (pathJoin mountPath "/boot/efi") = false then
        (Except.error "failed to mount loop device", [rootEv, xbootEv, espEv])
      else (Except.ok (), [rootEv, xbootEv, espEv])
    else
      if w.mountOk esp (pathJoin mountPath "/boot/efi") = false then
        (Except.error "failed to mount loop device", [rootEv, espEv])
      else (Except.ok (), [rootEv, espEv])

/-- The mounts the spec prescribes, in order: root onto the scratch
directory, the extended boot partition onto scratchDir/boot except on the
architecture that keeps kernel artifacts on the root partition, and the EFI
system partition onto scratchDir/boot/efi. Stated from the spec's words as
the target of the C8 comparison. -/
def mountPlan (goarch loopDevice mountPath : String) : List MountEv :=
  MountEv.mount (loopDevice ++ "p1") mountPath ::
    ((if goarch = "arm64" then []
      else [MountEv.mount (loopDevice ++ "p16") (pathJoin mountPath "/boot")])
      ++ [MountEv.mount (loopDevice ++ "p15") (pathJoin mountPath "/boot/efi")])

/-- The attempted steps of a fallible sequence: every step up to and
including the first failing one, stated from the spec's words for the C8
comparison. -/
def stopAtFirstFailure (ok : MountEv → Bool) : List MountEv → List MountEv
  | [] => []
  | e :: rest => if ok e then e :: stopAtFirstFailure ok rest else [e]

/-- Claim C8: the mount operation attempts exactly the architecture's
prescribed mounts in order, stopping at the first failure, and succeeds iff
every prescribed mount succeeds. -/
theorem mountLoopDevice_order (goarch : String) (w : PartWorld)
    (loopDevice mountPath : String) :
    (mountLoopDevice goarch w loopDevice mountPath).2 =
      stopAtFirstFailure (mountEvOk w) (mountPlan goarch loopDevice mountPath) ∧
    ((mountLoopDevice goarch w loopDevice mountPath).1 = Except.ok () ↔
      ∀ e ∈ mountPlan goarch loopDevice mountPath, mountEvOk w e = true) := by
  by_cases ha : goarch = "arm64" <;>
    by_cases h1 : w.mountOk (loopDevice ++ "p1") mountPath = false <;>
      by_cases h16 : w.mountOk (loopDevice ++ "p16") (pathJoin mountPath "/boot") = false <;>
        by_cases h15 : w.mountOk (loopDevice ++ "p15") (pathJoin mountPath "/boot/efi") = false <;>
          simp_all [mountLoopDevice, mountPlan, stopAtFirstFailure, mountEvOk]

/-- Witness for C8: on amd64 with the extended-boot mount failing, exactly
root and the failing boot mount are attempted and the operation fails. -/
theorem mountLoopDevice_order_witness :
    (mountLoopDevice "amd64"
        ⟨fun _ dst => dst ≠ "/tmp/mount1/boot"⟩ "/dev/loop0" "/tmp/mount1").2 =
      stopAtFirstFailure
        (mountEvOk ⟨fun _ dst => dst ≠ "/tmp/mount1/boot"⟩)
        (mountPlan "amd64" "/dev/loop0" "/tmp/mount1") ∧
    ((mountLoopDevice "amd64"
        ⟨fun _ dst => dst ≠ "/tmp/mount1/boot"⟩ "/dev/loop0" "/tmp/mount1").1 = Except.ok () ↔
      ∀ e ∈ mountPlan "amd64" "/dev/loop0" "/tmp/mount1",
        mountEvOk ⟨fun _ dst => dst ≠ "/tmp/mount1/boot"⟩ e = true) :=
  mountLoopDevice_order "amd64" ⟨fun _ dst => dst ≠ "/tmp/mount1/boot"⟩
    "/dev/loop0" "/tmp/mount1"

/-- Orchestrator-level events of mountImageAndModifyFilesystem: the three
successful acquisitions (loop attach, scratch-directory creation, mount) and
the three deferred releases (recursive unmount, scratch-directory removal,
loop detach). -/
inductive Ev where
  | attach : String → Ev
  | mkdirTemp : String → Ev
  | mount : String → Ev
  | unmount : String → Ev
  | removeAll : String → Ev
  | detach : String → Ev
  deriving DecidableEq

/-- Oracle for one orchestrated mount-and-customize run. unmountOk is the
outcome of the deferred recursive unmount; the source invokes it as a bare
deferred call and discards its error. -/
structure OrchWorld where
  attachResult : Except String String
  mkdirResult : Except String String
  part : PartWorld
  guest : GuestWorld
  unmountOk : Bool

/-- mountImageAndModifyFilesystem from src/main.go: attach the raw image to
a loop device (failure: 6), create the scratch mount directory (failure: 7),
mount the partitions (failure: 8), customize the mounted guest (failure: 9),
0 on success. Each successful acquisition pushes its release onto the defer
stack (detach, then scratch-directory removal, then recursive unmount),
and the stack runs last-in-first-out on every return path. The deferred
unmount's error is discarded by the source, so the oracle's unmountOk is
never consulted. The second component is the event trace. -/
def mountImageAndModifyFilesystem (goarch : String) (w : OrchWorld)
    (rawImagePath : String) (config : Config) : Nat × List Ev :=
  match w.attachResult with
  | Except.error _ => (6, [])
  | Except.ok loopDevice =>
    let defs := [Ev.detach loopDevice]
    match w.mkdirResult with
    | Except.error _ => (7, [Ev.attach loopDevice] ++ defs)
    | Except.ok mountPath =>
      let defs := Ev.removeAll mountPath :: defs
      match (mountLoopDevice goarch w.part loopDevice mountPath).1 with
      | Except.error _ =>
        (8, [Ev.attach loopDevice, Ev.mkdirTemp mountPath] ++ defs)
      | Except.ok _ =>
        let defs := Ev.unmount mountPath :: defs
        match (customizeMount goarch w.guest mountPath config).1 with
        | Except.error _ =>
          (9, [Ev.attach loopDevice, Ev.mkdirTemp mountPath, Ev.mount mountPath] ++ defs)
        | Except.ok _ =>
          (0, [Ev.attach loopDevice, Ev.mkdirTemp mountPath, Ev.mount mountPath] ++ defs)

/-- The release action registered for an acquisition event, if the event is
an acquisition. -/
def releaseFor : Ev → Option Ev
  | Ev.attach dev => some (Ev.detach dev)
  | Ev.mkdirTemp dir => some (Ev.removeAll dir)
  | Ev.mount dir => some (Ev.unmount dir)
  | _ => none

/-- Whether an event is a release action. -/
def isRelease : Ev → Bool
  | Ev.unmount _ => true
  | Ev.removeAll _ => true
  | Ev.detach _ => true
  | _ => false

/-- Claim C3: for a run whose attach and scratch-directory creation succeed
and which then fails at the mount stage or at the customization stage, the
attached loop device is detached exactly once by the end of the run, and the
release actions performed are exactly the registered releases of the
successful acquisitions, in reverse order of acquisition. -/
theorem cleanup_reverse_order (goarch raw : String) (w : OrchWorld) (cfg : Config)
    (dev dir : String)
    (hA : w.attachResult = Except.ok dev) (hM : w.mkdirResult = Except.ok dir)
    (hFail : (mountLoopDevice goarch w.part dev dir).1 ≠ Except.ok () ∨
      (customizeMount goarch w.guest dir cfg).1 ≠ Except.ok ()) :
    (mountImageAndModifyFilesystem goarch w raw cfg).2.count (Ev.detach dev) = 1 ∧
    (mountImageAndModifyFilesystem goarch w raw cfg).2.filter isRelease =
      ((mountImageAndModifyFilesystem goarch w raw cfg).2.filterMap releaseFor).reverse := by
  rcases hmt : (mountLoopDevice goarch w.part dev dir).1 with e | u
  · constructor <;>
      simp [mountImageAndModifyFilesystem, hA, hM, hmt, isRelease, releaseFor,
        List.count_cons, List.count_nil]
  · rcases hcu : (customizeMount goarch w.guest dir cfg).1 with e | u'
    · constructor <;>
        simp [mountImageAndModifyFilesystem, hA, hM, hmt, hcu, isRelease, releaseFor,
          List.count_cons, List.count_nil]
    · exfalso
      rcases hFail with h | h
      · exact h (by rw [hmt])
      · exact h (by rw [hcu])

/-- Witness for C3: a run failing at the customization stage (the cloud-init
destination cannot be created); the loop device is detached exactly once and
the releases run in reverse acquisition order. -/
theorem cleanup_reverse_order_witness :
    (mountImageAndModifyFilesystem "amd64"
        ⟨Except.ok "/dev/loop0", Except.ok "/tmp/mount1", ⟨fun _ _ => true⟩,
          ⟨⟨false, true, Except.ok 7, true⟩, fun _ => true,
            ⟨true, fun _ => true, fun _ => true⟩, ⟨true, true, true⟩⟩, true⟩
        "ubuntu.img"
        { CloudInitConfigPath := "/cfg.yaml", ImageURL := "http://x",
          ExtraPackages := [], RemovePackages := [], KernelVersion := "",
          OutputFormat := "" }).2.count (Ev.detach "/dev/loop0") = 1 ∧
    (mountImageAndModifyFilesystem "amd64"
        ⟨Except.ok "/dev/loop0", Except.ok "/tmp/mount1", ⟨fun _ _ => true⟩,
          ⟨⟨false, true, Except.ok 7, true⟩, fun _ => true,
            ⟨true, fun _ => true, fun _ => true⟩, ⟨true, true, true⟩⟩, true⟩
        "ubuntu.img"
        { CloudInitConfigPath := "/cfg.yaml", ImageURL := "http://x",
          ExtraPackages := [], RemovePackages := [], KernelVersion := "",
          OutputFormat := "" }).2.filter isRelease =
      ((mountImageAndModifyFilesystem "amd64"
        ⟨Except.ok "/dev/loop0", Except.ok "/tmp/mount1", ⟨fun _ _ => true⟩,
          ⟨⟨false, true, Except.ok 7, true⟩, fun _ => true,
            ⟨true, fun _ => true, fun _ => true⟩, ⟨true, true, true⟩⟩, true⟩
        "ubuntu.img"
        { CloudInitConfigPath := "/cfg.yaml", ImageURL := "http://x",
          ExtraPackages := [], RemovePackages := [], KernelVersion := "",
          OutputFormat := "" }).2.filterMap releaseFor).reverse :=
  cleanup_reverse_order "amd64" "ubuntu.img"
    ⟨Except.ok "/dev/loop0", Except.ok "/tmp/mount1", ⟨fun _ _ => true⟩,
      ⟨⟨false, true, Except.ok 7, true⟩, fun _ => true,
        ⟨true, fun _ => true, fun _ => true⟩, ⟨true, true, true⟩⟩, true⟩
    { CloudInitConfigPath := "/cfg.yaml", ImageURL := "http://x",
      ExtraPackages := [], RemovePackages := [], KernelVersion := "",
      OutputFormat := "" }
    "/dev/loop0" "/tmp/mount1" rfl rfl
    (Or.inr (by simp [customizeMount, configureCloudInit]))

/-- A configuration with only the cloud-init document path populated. -/
def cfgMinimal : Config :=
  { CloudInitConfigPath := "/cfg.yaml", ImageURL := "http://x",
    ExtraPackages := [], RemovePackages := [], KernelVersion := "",
    OutputFormat := "" }

/-- A guest world in which every guest-mutation operation succeeds. -/
def guestAllOk : GuestWorld :=
  ⟨⟨true, true, Except.ok 7, true⟩, fun _ => true,
    ⟨true, fun _ => true, fun _ => true⟩, ⟨true, true, true⟩⟩

/-- A guest world in which creating the cloud-init destination file fails
and everything else succeeds. -/
def guestBadCloudInit : GuestWorld :=
  ⟨⟨false, true, Except.ok 7, true⟩, fun _ => true,
    ⟨true, fun _ => true, fun _ => true⟩, ⟨true, true, true⟩⟩

/-- An orchestrator world whose only failure is the deferred recursive
unmount. -/
def orchUnmountFails : OrchWorld :=
  ⟨Except.ok "/dev/loop0", Except.ok "/tmp/mount1", ⟨fun _ _ => true⟩,
    guestAllOk, false⟩

/-- Claim C4 (counterexample): a run that succeeds through customization but
whose deferred recursive unmount fails still reports outcome 0 — the unmount
failure is neither fatal nor surfaced, because the source invokes the
unmount as a bare deferred call and discards its error. -/
theorem unmount_failure_not_surfaced_cex :
    orchUnmountFails.unmountOk = false ∧
      Ev.unmount "/tmp/mount1" ∈
        (mountImageAndModifyFilesystem "amd64" orchUnmountFails "ubuntu.img" cfgMinimal).2 ∧
      (mountImageAndModifyFilesystem "amd64" orchUnmountFails "ubuntu.img" cfgMinimal).1 = 0 := by
  refine ⟨rfl, ?_, ?_⟩ <;>
    simp [mountImageAndModifyFilesystem, customizeMount, configureCloudInit,
      mountLoopDevice, pathJoin, orchUnmountFails, guestAllOk, cfgMinimal]

/-- Claim C4 (amended): when the deferred recursive unmount fails during
cleanup, the failure is discarded: the unmount is still performed, but the
run's reported outcome is unchanged — a run that failed nowhere else still
reports 0. -/
theorem unmount_failure_discarded (goarch raw : String) (w : OrchWorld) (cfg : Config)
    (dev dir : String)
    (hA : w.attachResult = Except.ok dev) (hM : w.mkdirResult = Except.ok dir)
    (hMt : (mountLoopDevice goarch w.part dev dir).1 = Except.ok ())
    (hC : (customizeMount goarch w.guest dir cfg).1 = Except.ok ())
    (hU : w.unmountOk = false) :
    (mountImageAndModifyFilesystem goarch w raw cfg).1 = 0 ∧
      Ev.unmount dir ∈ (mountImageAndModifyFilesystem goarch w raw cfg).2 := by
  constructor <;> simp [mountImageAndModifyFilesystem, hA, hM, hMt, hC]

/-- Witness for the amended C4 statement at a concrete run. -/
theorem unmount_failure_discarded_witness :
    (mountImageAndModifyFilesystem "arm64"
        ⟨Except.ok "/dev/loop0", Except.ok "/tmp/mount1", ⟨fun _ _ => true⟩,
          ⟨⟨true, true, Except.ok 7, true⟩, fun _ => true,
            ⟨true, fun _ => true, fun _ => true⟩, ⟨true, true, true⟩⟩, false⟩
        "ubuntu.img"
        { CloudInitConfigPath := "/cfg.yaml", ImageURL := "http://x",
          ExtraPackages := [], RemovePackages := [], KernelVersion := "",
          OutputFormat := "" }).1 = 0 ∧
      Ev.unmount "/tmp/mount1" ∈ (mountImageAndModifyFilesystem "arm64"
        ⟨Except.ok "/dev/loop0", Except.ok "/tmp/mount1", ⟨fun _ _ => true⟩,
          ⟨⟨true, true, Except.ok 7, true⟩, fun _ => true,
            ⟨true, fun _ => true, fun _ => true⟩, ⟨true, true, true⟩⟩, false⟩
        "ubuntu.img"
        { CloudInitConfigPath := "/cfg.yaml", ImageURL := "http://x",
          ExtraPackages := [], RemovePackages := [], KernelVersion := "",
          OutputFormat := "" }).2 :=
  unmount_failure_discarded "arm64" "ubuntu.img"
    ⟨Except.ok "/dev/loop0", Except.ok "/tmp/mount1", ⟨fun _ _ => true⟩,
      ⟨⟨true, true, Except.ok 7, true⟩, fun _ => true,
        ⟨true, fun _ => true, fun _ => true⟩, ⟨true, true, true⟩⟩, false⟩
    { CloudInitConfigPath := "/cfg.yaml", ImageURL := "http://x",
      ExtraPackages := [], RemovePackages := [], KernelVersion := "",
      OutputFormat := "" }
    "/dev/loop0" "/tmp/mount1" rfl rfl
    (by simp [mountLoopDevice, pathJoin]) (by simp [customizeMount, configureCloudInit]) rfl

/-- Oracle for one whole process run (customizeImage). -/
structure RunWorld where
  isRoot : Bool
  configPathSet : Bool
  parseResult : Except String Config
  downloadOk : Bool
  convertToRawOk : Bool
  orch : OrchWorld
  outputConvertOk : Bool

/-- customizeImage from src/main.go: privilege check (1), required flag
check (2), config parse (3), download-if-needed (4), conversion to raw (5);
then `code := mountImageAndModifyFilesystem(rawImagePath, config)` followed
by `if err != nil { return code }` — where err is the error of the
convertImageToFormat call already checked above, hence necessarily nil, so
that guard never fires and code is discarded; then the optional output
conversion (failure: 9), else 0. -/
def customizeImage (goarch : String) (w : RunWorld) : Nat :=
  if w.isRoot = false then 1
  else if w.configPathSet = false then 2
  else
    match w.parseResult with
    | Except.error _ => 3
    | Except.ok config =>
      if w.downloadOk = false then 4
      else if w.convertToRawOk = false then 5
      else
        let code := (mountImageAndModifyFilesystem goarch w.orch "ubuntu.img" config).1
        let errAfterConvert : Option String := none
        if errAfterConvert.isSome then code
        else if config.OutputFormat ≠ "" then
          if w.outputConvertOk = false then 9 else 0
        else 0

/-- An orchestrator world whose only failure is guest customization: the
cloud-init destination file cannot be created. -/
def orchCustomizeFails : OrchWorld :=
  ⟨Except.ok "/dev/loop0", Except.ok "/tmp/mount1", ⟨fun _ _ => true⟩,
    guestBadCloudInit, true⟩

/-- A process run that is healthy everywhere except at the
guest-customization stage, with no output format requested. -/
def runCustomizeFails : RunWorld :=
  ⟨true, true, Except.ok cfgMinimal, true, true, orchCustomizeFails, true⟩

/-- Claim C1 (code bug): a run that fails at the guest-customization stage
(the cloud-init destination cannot be created) with no output format
requested: the customization stage reports its failure code 9, yet the
process outcome is 0, because the source guards `return code` with a stale
err that is necessarily nil at that point. -/
theorem customizeImage_exit_code_bug :
    (mountImageAndModifyFilesystem "amd64" runCustomizeFails.orch
        "ubuntu.img" cfgMinimal).1 = 9 ∧
      customizeImage "amd64" runCustomizeFails = 0 := by
  constructor <;>
    simp [customizeImage, mountImageAndModifyFilesystem, customizeMount,
      configureCloudInit, mountLoopDevice, pathJoin, runCustomizeFails,
      orchCustomizeFails, guestBadCloudInit, cfgMinimal]

end Chosi
